import Mathlib

/-!
Verification of the hack-the-ai repository.

Embedded sources:
* `src/mcp-data-processing/create_training_data.py` — the reshaping pipeline
  (`clean_number`, the wide-to-long reshaper, the multi-source merger).
* `src/server.py` — the analytics server (`_ensure_yyyy_mm`, `_filter_rows`,
  `_filter_rows_by_type`, `get_monthly_change`, `get_product_mix`).

Modelling conventions:
* Python scalars that can appear in a table cell are `PyValue`
  (a string, an integer, or a missing value: `None`/NaN).
  All strings are treated at the ASCII level (the data of this repository is
  ASCII: brand ids, product names, column headers, formatted numbers).
* Fallible code is embedded in `Except String`, the error message carrying the
  Python exception.  Uncaught Python exceptions are `.error`.
* The server helpers additionally return a trace of the effects they perform
  (`Ev`), in source statement order: loading the snapshot, filtering, and
  period validation, so that claims about the *order* of these effects are
  statable.
* Percentages (Python float division) are modelled exactly in `ℚ`.
-/

namespace HackTheAI

instance {ε α : Type} [DecidableEq ε] [DecidableEq α] : DecidableEq (Except ε α) :=
  fun x y =>
    match x, y with
    | .ok a, .ok b =>
        if h : a = b then isTrue (congrArg Except.ok h)
        else isFalse (fun he => h (Except.ok.inj he))
    | .error a, .error b =>
        if h : a = b then isTrue (congrArg Except.error h)
        else isFalse (fun he => h (Except.error.inj he))
    | .ok _, .error _ => isFalse (fun he => Except.noConfusion he)
    | .error _, .ok _ => isFalse (fun he => Except.noConfusion he)

/-- A Python scalar as it can appear in a table cell: a string, an integer,
or a missing value (`None` / pandas NaN). -/
inductive PyValue where
  | str (s : String)
  | int (n : Int)
  | na
deriving DecidableEq

/-- Value of a list of decimal digit characters, most significant first
(the semantics of Python `int` on a digit string). -/
def digitsToNat (cs : List Char) : Nat :=
  cs.foldl (fun a c => a * 10 + (c.toNat - 48)) 0

/-- `re.sub(r'[",]', '', s)`: remove every double quote and comma. -/
def pyCleanChars (s : String) : List Char :=
  s.toList.filter (fun c => !(c = '"' || c = ','))

/-- Python `str.isdigit` (ASCII level): nonempty and all characters digits. -/
def pyIsDigit (cs : List Char) : Bool :=
  !cs.isEmpty && cs.all Char.isDigit

/-- `clean_number` from create_training_data.py lines 18-24:
strings are stripped of quotes and commas and converted with `int` when the
cleaned string is all digits (else 0); missing values give 0; any other
numeric value is converted with `int`. -/
def clean_number : PyValue → Int
  | .str s =>
      let cs := pyCleanChars s
      if pyIsDigit cs then (digitsToNat cs : Int) else 0
  | .int n => n
  | .na => 0

/-! ### Period-suffix conversion (create_training_data.py lines 52-66) -/

/-- English abbreviated month names, as matched by `%b` (case-insensitively). -/
def monthAbbrs : List String :=
  ["jan", "feb", "mar", "apr", "may", "jun",
   "jul", "aug", "sep", "oct", "nov", "dec"]

/-- Split a character list on `'_'` (Python `str.split('_')` semantics). -/
def splitU : List Char → List (List Char)
  | [] => [[]]
  | c :: cs =>
      let r := splitU cs
      if c = '_' then [] :: r
      else
        match r with
        | [] => [[c]]
        | g :: gs => (c :: g) :: gs

/-- Index of the first occurrence of `s` in `l`. -/
def idxOf : List String → String → Option Nat
  | [], _ => Option.none
  | a :: as, s => if a = s then some 0 else (idxOf as s).map (· + 1)

/-- The pandas `Timestamp` (`datetime64[ns]`) range: `Timestamp.min` is
1677-09-21 and `Timestamp.max` is 2262-04-11.  A `%b_%Y` parse produces the
first day of the month, so the representable month-starts are 1677-10
through 2262-04; anything outside raises `OutOfBoundsDatetime`, which
`errors='coerce'` turns into NaT. -/
def inTimestampBounds (y m : Nat) : Bool :=
  (decide (1677 < y) || (decide (y = 1677) && decide (10 ≤ m))) &&
  (decide (y < 2262) || (decide (y = 2262) && decide (m ≤ 4)))

/-- `pd.to_datetime(s, format='%b_%Y', errors='coerce')`: parse an
abbreviated English month (case-insensitive), an underscore, and a 4-digit
year; `none` models the NaT produced by `errors='coerce'` on a failed parse
and on an out-of-bounds (`datetime64[ns]`) date.  Returns
(year, month in 1..12). -/
def to_datetime_b_Y (s : String) : Option (Nat × Nat) :=
  match splitU s.toList with
  | [mo, yr] =>
      if yr.length = 4 && yr.all Char.isDigit then
        match idxOf monthAbbrs ((mo.map Char.toLower).asString) with
        | some i =>
            if inTimestampBounds (digitsToNat yr) (i + 1)
            then some (digitsToNat yr, i + 1)
            else Option.none
        | Option.none => Option.none
      else Option.none
  | _ => Option.none

/-- Zero-pad a month number to two digits (the `%m` part of `strftime`). -/
def pad2 (n : Nat) : String :=
  if n < 10 then "0" ++ toString n else toString n

/-- Zero-pad a year to four digits (the `%Y` part of `strftime`). -/
def pad4 (n : Nat) : String :=
  if n < 10 then "000" ++ toString n
  else if n < 100 then "00" ++ toString n
  else if n < 1000 then "0" ++ toString n
  else toString n

/-- `month_obj.strftime('%Y-%m')`: formats a parsed date; on NaT (the
`errors='coerce'` failure value) it raises
`ValueError: NaTType does not support strftime`. -/
def strftime_Y_m : Option (Nat × Nat) → Except String String
  | some (y, m) => .ok (pad4 y ++ "-" ++ pad2 m)
  | Option.none => .error "NaTType does not support strftime"

/-- Python `s.replace('_', '-')`. -/
def replaceUnderscore (s : String) : String :=
  (s.toList.map (fun c => if c = '_' then '-' else c)).asString

/-- The try/except of lines 61-66: try to parse-and-format the suffix as
`%b_%Y`; the `strftime` on NaT raises into the bare `except`, whose fallback
replaces underscores by dashes. -/
def periodOf (suffix : String) : String :=
  match strftime_Y_m (to_datetime_b_Y suffix) with
  | .ok r => r
  | .error _ => replaceUnderscore suffix

/-! ### Wide-to-long reshaper and multi-source merger
(create_training_data.py lines 26-106) -/

/-- `opt.dropPrefix?`-style helper: if `pat` is a prefix of `s`, return the
rest of `s`, else `none`. -/
def dropPrefixL : List Char → List Char → Option (List Char)
  | [], s => some s
  | _ :: _, [] => Option.none
  | p :: ps, c :: cs => if p = c then dropPrefixL ps cs else Option.none

/-- Python `s.startswith(pre)`. -/
def pyStartsWith (s pre : String) : Bool :=
  (dropPrefixL pre.toList s.toList).isSome

/-- Left-to-right, non-overlapping replacement of the nonempty pattern
`p0 :: ps` by `rep` (Python `str.replace` semantics), with a fuel argument
for structural recursion.  After a match, the scan continues on the remaining
suffix, whose length is at most that of the tail, so fuel = input length is
always sufficient. -/
def replaceAllCh (p0 : Char) (ps rep : List Char) : Nat → List Char → List Char
  | _, [] => []
  | 0, s => s
  | fuel + 1, c :: cs =>
    if c = p0 then
      match dropPrefixL ps cs with
      | some rest => rep ++ replaceAllCh p0 ps rep fuel rest
      | Option.none => c :: replaceAllCh p0 ps rep fuel cs
    else c :: replaceAllCh p0 ps rep fuel cs

/-- Python `s.replace(pat, rep)` (for a nonempty `pat`; an empty pattern never
occurs in the source). -/
def pyReplace (pat rep s : String) : String :=
  match pat.toList with
  | [] => s
  | p :: ps => (replaceAllCh p ps rep.toList s.toList.length s.toList).asString

/-- A row of a source CSV table.  `brand_id` and `category` are the
`brand_id` and `Product Category` columns (read as strings, per the
`dtype` argument of `read_csv`); `cells` holds the remaining columns. -/
structure SrcRow where
  brand_id : String
  category : String
  cells : List (String × PyValue)
deriving DecidableEq

/-- A source CSV table as loaded by `pd.read_csv`: the column-name list and
the rows. -/
structure Table where
  cols : List String
  rows : List SrcRow
deriving DecidableEq

/-- Look up a cell by column name; a column with no stored value is missing
(pandas NaN). -/
def getCell (row : SrcRow) (c : String) : PyValue :=
  match row.cells.find? (fun e => e.1 = c) with
  | some e => e.2
  | Option.none => .na

/-- The `tpt_`-prefixed column names of a table (line 45). -/
def tptColsOf (cols : List String) : List String :=
  cols.filter (fun c => pyStartsWith c "tpt_")

/-- The `tpv_`-prefixed column names of a table (line 46). -/
def tpvColsOf (cols : List String) : List String :=
  cols.filter (fun c => pyStartsWith c "tpv_")

/-- The count/volume column pairs actually processed by the loop of lines
52-55: each `tpt_` column whose `tpt_→tpv_` renaming occurs among the `tpv_`
columns; unmatched count columns are skipped. -/
def matchedPairs (cols : List String) : List (String × String) :=
  (tptColsOf cols).filterMap (fun ct =>
    let cv := pyReplace "tpt_" "tpv_" ct
    if (tpvColsOf cols).contains cv then some (ct, cv) else Option.none)

/-- A normalized record of the snapshot (one row of the long format, which is
also the record shape served by server.py). -/
structure Rec where
  brand_id : String
  product : String
  tpt : Int
  tpv : Int
  month : String
  type : String
deriving DecidableEq

/-- The KeyError raised at line 80 when `df_long` is the empty frame. -/
def keyErrorTpt : String := "KeyError: tpt"

/-- `df_long` as of line 84, already cleaned and typed: one record per
matched column pair and table row (the pair-major order of the `pd.concat`
loop), before the activity filter of line 87. -/
def reshapeLong (t : Table) (data_type : String) : List Rec :=
  (matchedPairs t.cols).flatMap (fun pr =>
    t.rows.map (fun row =>
      ({ brand_id := row.brand_id
         product := row.category
         tpt := clean_number (getCell row pr.1)
         tpv := clean_number (getCell row pr.2)
         month := periodOf (pyReplace "tpt_" "" pr.1)
         type := data_type } : Rec)))

/-- The per-table body of `create_mcp_training_data` (lines 44-89): build the
long frame pair by pair, clean the numbers, attach the type, and keep only
rows with activity.  When no count column has a matching volume column the
long frame is the empty `pd.DataFrame()` and `df_long['tpt']` at line 80
raises an uncaught `KeyError`. -/
def reshapeTable (t : Table) (data_type : String) : Except String (List Rec) :=
  match matchedPairs t.cols with
  | [] => .error keyErrorTpt
  | _ :: _ =>
      .ok ((reshapeLong t data_type).filter
        (fun r => decide (0 < r.tpt) || decide (0 < r.tpv)))

/-- One entry of `FILE_METADATA` (lines 7-14). -/
structure Meta where
  filename : String
  type : String
  product_name : String
deriving DecidableEq

/-- `FILE_METADATA` from lines 7-14. -/
def FILE_METADATA : List Meta :=
  [ ⟨"Churn_Checkout.csv", "churn", "CHECKOUT"⟩,
    ⟨"Churn_Direct API.csv", "churn", "DIRECT API"⟩,
    ⟨"Churn_Plugin.csv", "churn", "PLUGIN"⟩,
    ⟨"Profit_Checkout.csv", "profit", "CHECKOUT"⟩,
    ⟨"Profit_Direct API.csv", "profit", "DIRECT API"⟩,
    ⟨"Profit_Plugin_trx _4months.csv", "profit", "PLUGIN"⟩ ]

/-- The loop of lines 33-89 over the metadata entries.  The table paired with
each entry is the result of `pd.read_csv`: `none` when reading raised (the
caught branch at lines 40-42, which skips the file).  A `KeyError` from the
per-table body is uncaught and aborts the whole build (`.error`). -/
def processAll : List (Meta × Option Table) → Except String (List (List Rec))
  | [] => .ok []
  | (_, Option.none) :: rest => processAll rest
  | (m, some t) :: rest =>
      match reshapeTable t m.type with
      | .error e => .error e
      | .ok recs =>
          match processAll rest with
          | .error e => .error e
          | .ok more => .ok (recs :: more)

/-- The outcome of a completed build (lines 91-103): either the failure
message of line 92 (every file failed to read) or the merged snapshot. -/
inductive BuildResult where
  | failure (msg : String)
  | snapshot (recs : List Rec)
deriving DecidableEq

/-- The failure message returned at line 92. -/
def noDataMsg : String :=
  "Gagal membuat data training. Tidak ada data yang berhasil diproses."

/-- `create_mcp_training_data` (lines 26-103): run the per-table loop, then
either report failure (no file processed) or concatenate all frames into the
snapshot that is serialized to JSON. -/
def create_mcp_training_data (inputs : List (Meta × Option Table)) :
    Except String BuildResult :=
  (processAll inputs).map (fun frames =>
    match frames with
    | [] => .failure noDataMsg
    | _ :: _ => .snapshot frames.flatten)

/-! ### Server (server.py): validation, filtering, aggregation.

The records served are exactly the snapshot records (`Rec`): server.py reads
the JSON written by the merger, whose entries carry `brand_id`, `product`,
`tpt`, `tpv`, `month`, `type`. -/

/-- Observable effects of the filter helpers, in source statement order:
reading the snapshot (`_load_data`), the type filter, the call to
`_ensure_yyyy_mm`, and the three predicate filters. -/
inductive Ev where
  | load
  | typeFilter
  | validate
  | monthFilter
  | productFilter
  | brandFilter
deriving DecidableEq

/-- Python truthiness of an `Optional[str]` argument as used in
`if month:` / `if product:` / `if brand_id:`: `None` and the empty string are
falsy, so the corresponding filter (and, for `month`, the validation) is
skipped. -/
def optTruthy : Option String → Option String
  | some s => if s = "" then Option.none else some s
  | Option.none => Option.none

/-- Lexicographic (code-point) comparison `a <= b` of Python strings. -/
def charListLe : List Char → List Char → Bool
  | [], _ => true
  | _ :: _, [] => false
  | a :: as, b :: bs => if a = b then charListLe as bs else Nat.blt a.toNat b.toNat

/-- Python `a <= b` on strings. -/
def pyLe (a b : String) : Bool := charListLe a.toList b.toList

/-- The message of the ValueError raised by `_ensure_yyyy_mm` (line 127). -/
def monthErr : String := "month must be in YYYY-MM format, e.g. 2025-07"

/-- `_ensure_yyyy_mm` (lines 123-127) as a predicate: whether
`datetime.strptime(month, "%Y-%m")` succeeds.  CPython's `%Y` matches exactly
four digits and `%m` matches `1[0-2]|0[1-9]|[1-9]` with no characters left
over, so the accepted strings are four digits, a dash, and a one- or
two-digit month in 1..12. -/
def ensure_yyyy_mm (month : String) : Bool :=
  match month.toList with
  | [y1, y2, y3, y4, h, m1] =>
      y1.isDigit && y2.isDigit && y3.isDigit && y4.isDigit && h = '-' &&
      (decide ('1' ≤ m1) && decide (m1 ≤ '9'))
  | [y1, y2, y3, y4, h, m1, m2] =>
      y1.isDigit && y2.isDigit && y3.isDigit && y4.isDigit && h = '-' &&
      ((m1 = '1' && (m2 = '0' || m2 = '1' || m2 = '2')) ||
       (m1 = '0' && (decide ('1' ≤ m2) && decide (m2 ≤ '9'))))
  | _ => false

/-- The two trailing `if product:` / `if brand_id:` filters shared by
`_filter_rows` and `_filter_rows_by_type` (exact string equality). -/
def filtersPB (rows : List Rec) (product brand_id : Option String)
    (evs : List Ev) : List Rec × List Ev :=
  let step1 : List Rec × List Ev :=
    match optTruthy product with
    | some p => (rows.filter (fun r => decide (r.product = p)), evs ++ [Ev.productFilter])
    | Option.none => (rows, evs)
  match optTruthy brand_id with
  | some b => (step1.1.filter (fun r => decide (r.brand_id = b)), step1.2 ++ [Ev.brandFilter])
  | Option.none => step1

/-- `_filter_rows` (lines 131-151): load the snapshot, then, when `month` is
truthy, validate it (raising `ValueError` on failure) and keep the rows with
`row["month"] <= month` (cumulative, lexicographic `<=` — not equality), then
apply the product and brand filters.  The second component is the trace of
effects actually performed, in order. -/
def filter_rows (data : List Rec) (month product brand_id : Option String) :
    Except String (List Rec) × List Ev :=
  match optTruthy month with
  | some m =>
      if ensure_yyyy_mm m then
        let (rows, evs) :=
          filtersPB (data.filter (fun r => pyLe r.month m)) product brand_id
            [Ev.load, Ev.validate, Ev.monthFilter]
        (.ok rows, evs)
      else (.error monthErr, [Ev.load, Ev.validate])
  | Option.none =>
      let (rows, evs) := filtersPB data product brand_id [Ev.load]
      (.ok rows, evs)

/-- `sum(int(r.get("tpt", 0)) for r in rows)`. -/
def sumTpt : List Rec → Int
  | [] => 0
  | r :: rs => r.tpt + sumTpt rs

/-- `sum(int(r.get("tpv", 0)) for r in rows)`. -/
def sumTpv : List Rec → Int
  | [] => 0
  | r :: rs => r.tpv + sumTpv rs

/-- The numeric content of the dictionary returned by `get_monthly_change`:
the four period totals and the two percentage changes. -/
structure ChangeResult where
  tpt_a : Int
  tpv_a : Int
  tpt_b : Int
  tpv_b : Int
  tpt_change_pct : ℚ
  tpv_change_pct : ℚ
deriving DecidableEq

/-- `get_monthly_change` (lines 278-306): validate both months up front, take
the two filtered row sets through `_filter_rows`, total `tpt`/`tpv` for each,
and compute `((b - a) / a * 100) if a else 0` for each metric. -/
def get_monthly_change (data : List Rec) (month_a month_b : String)
    (product brand_id : Option String) : Except String ChangeResult :=
  if ensure_yyyy_mm month_a then
    if ensure_yyyy_mm month_b then
      match (filter_rows data (some month_a) product brand_id).1,
            (filter_rows data (some month_b) product brand_id).1 with
      | .ok rows_a, .ok rows_b =>
          let tpt_a := sumTpt rows_a
          let tpv_a := sumTpv rows_a
          let tpt_b := sumTpt rows_b
          let tpv_b := sumTpv rows_b
          .ok { tpt_a := tpt_a, tpv_a := tpv_a, tpt_b := tpt_b, tpv_b := tpv_b
                tpt_change_pct :=
                  if tpt_a ≠ 0 then ((tpt_b : ℚ) - (tpt_a : ℚ)) / (tpt_a : ℚ) * 100 else 0
                tpv_change_pct :=
                  if tpv_a ≠ 0 then ((tpv_b : ℚ) - (tpv_a : ℚ)) / (tpv_a : ℚ) * 100 else 0 }
      | .error e, _ => .error e
      | _, .error e => .error e
    else .error monthErr
  else .error monthErr

/-- The `product_totals` dictionary update of lines 325-334: initialize the
key to zeros when absent, then add the row's `tpt`/`tpv` to it.  The
dictionary is an association list in insertion order (Python dict order). -/
def bumpProd (m : List (String × Int × Int)) (p : String) (t v : Int) :
    List (String × Int × Int) :=
  match m with
  | [] => [(p, t, v)]
  | (q, tq, vq) :: rest =>
      if q = p then (q, tq + t, vq + v) :: rest
      else (q, tq, vq) :: bumpProd rest p t v

/-- The fully built `product_totals` dictionary for a row set. -/
def product_totals (rows : List Rec) : List (String × Int × Int) :=
  rows.foldl (fun m r => bumpProd m r.product r.tpt r.tpv) []

/-- One entry of the `mix_by_product` dictionary of `get_product_mix`. -/
structure MixEntry where
  product : String
  totalTPT : Int
  tptPct : ℚ
  totalTPV : Int
  tpvPct : ℚ
deriving DecidableEq

/-- The numeric content of the dictionary returned by `get_product_mix`. -/
structure MixResult where
  grandTotalTPT : Int
  grandTotalTPV : Int
  mix : List MixEntry
deriving DecidableEq

/-- The dictionary built in lines 320-347 for an already filtered row set:
grand totals, then one `mix_by_product` entry per product in insertion
order. -/
def mixOf (rows : List Rec) : MixResult :=
  { grandTotalTPT := sumTpt rows
    grandTotalTPV := sumTpv rows
    mix := (product_totals rows).map (fun e =>
      { product := e.1
        totalTPT := e.2.1
        tptPct := if sumTpt rows ≠ 0 then (e.2.1 : ℚ) / (sumTpt rows : ℚ) * 100 else 0
        totalTPV := e.2.2
        tpvPct := if sumTpv rows ≠ 0 then (e.2.2 : ℚ) / (sumTpv rows : ℚ) * 100 else 0 }) }

/-- `get_product_mix` (lines 315-355): filter by month through
`_filter_rows`, compute the grand totals, group per product, and report each
product's share `(total / grand_total * 100) if grand_total else 0` for each
metric. -/
def get_product_mix (data : List Rec) (month : Option String) :
    Except String MixResult :=
  match (filter_rows data month Option.none Option.none).1 with
  | .error e => .error e
  | .ok rows => .ok (mixOf rows)

/-- The product predicate a `_filter_rows` call applies, as a single Boolean:
exact equality when the argument is truthy, vacuous otherwise. -/
def pMatch (product : Option String) (r : Rec) : Bool :=
  match optTruthy product with
  | some p => decide (r.product = p)
  | Option.none => true

/-- The brand predicate a `_filter_rows` call applies, as a single Boolean. -/
def bMatch (brand_id : Option String) (r : Rec) : Bool :=
  match optTruthy brand_id with
  | some b => decide (r.brand_id = b)
  | Option.none => true

/-- Dictionary lookup in the `product_totals` association list. -/
def lookupP : List (String × Int × Int) → String → Option (Int × Int)
  | [], _ => Option.none
  | (q, tv) :: rest, p => if q = p then some tv else lookupP rest p

/-- The keys of the `product_totals` association list, in insertion order. -/
def keysP (m : List (String × Int × Int)) : List String := m.map Prod.fst

/-- Total `tpt` over the rows of one product. -/
def sumTptFor (rows : List Rec) (p : String) : Int :=
  sumTpt (rows.filter (fun r => decide (r.product = p)))

/-- Total `tpv` over the rows of one product. -/
def sumTpvFor (rows : List Rec) (p : String) : Int :=
  sumTpv (rows.filter (fun r => decide (r.product = p)))

/-! ### Supporting lemmas -/

theorem filter_sep_eq_filter_digit {l : List Char}
    (h : ∀ c ∈ l, c.isDigit ∨ c = ',' ∨ c = '"') :
    l.filter (fun c => !(c = '"' || c = ',')) = l.filter Char.isDigit := by
  refine List.filter_congr (fun c hc => ?_)
  rcases h c hc with hd | hc' | hc'
  · have h1 : (c = '"') = False := by
      refine eq_false (fun he => ?_); rw [he] at hd; exact absurd hd (by decide)
    have h2 : (c = ',') = False := by
      refine eq_false (fun he => ?_); rw [he] at hd; exact absurd hd (by decide)
    simp [h1, h2, hd]
  · subst hc'; simp
  · subst hc'; simp

example : clean_number (.str "45,000") = 45000 := by decide
example : clean_number (.str "\"1,234\"") = 1234 := by decide
example : clean_number (.str "12x") = 0 := by decide
example : clean_number (.int (-5)) = -5 := by decide
example : clean_number .na = 0 := by decide
example : periodOf "sep_2025" = "2025-09" := by decide
example : periodOf "Sep_2025" = "2025-09" := by decide
example : periodOf "2025_09" = "2025-09" := by decide
example : periodOf "weird" = "weird" := by decide
example : periodOf "sep_9999" = "sep-9999" := by decide
example : periodOf "sep_1677" = "sep-1677" := by decide
example : periodOf "oct_1677" = "1677-10" := by decide
example : periodOf "apr_2262" = "2262-04" := by decide
example : periodOf "may_2262" = "may-2262" := by decide
example :
    reshapeTable
      ⟨["brand_id", "Product Category", "tpt_sep_2025", "tpv_sep_2025"],
       [⟨"b1", "FOO", [("tpt_sep_2025", .str "3"), ("tpv_sep_2025", .str "4")]⟩]⟩
      "churn"
      = .ok [⟨"b1", "FOO", 3, 4, "2025-09", "churn"⟩] := by decide
example :
    reshapeTable ⟨["brand_id", "Product Category", "x"], [⟨"b1", "FOO", []⟩]⟩ "churn"
      = .error keyErrorTpt := by decide
example : ensure_yyyy_mm "2025-07" = true := by decide
example : ensure_yyyy_mm "2025-7" = true := by decide
example : ensure_yyyy_mm "2025/09" = false := by decide
example : ensure_yyyy_mm "2025-13" = false := by decide
example : ensure_yyyy_mm "" = false := by decide
example :
    (filter_rows [⟨"b", "P", 1, 2, "2025-01", "churn"⟩] (some "2025-02")
      Option.none Option.none).1 = .ok [⟨"b", "P", 1, 2, "2025-01", "churn"⟩] := by decide
example :
    (filter_rows [] (some "2025/09") Option.none Option.none).2
      = [Ev.load, Ev.validate] := by decide
example :
    get_monthly_change [] "2025-01" "2025-02" Option.none Option.none
      = .ok ⟨0, 0, 0, 0, 0, 0⟩ := by decide
example :
    get_product_mix [⟨"b", "P", 1, 3, "2025-01", "churn"⟩] Option.none
      = .ok ⟨1, 3, [⟨"P", 1, 100, 3, 100⟩]⟩ := by
  norm_num [get_product_mix, mixOf, filter_rows, filtersPB, optTruthy, sumTpt, sumTpv,
    product_totals, bumpProd]

theorem splitU_no_underscore {l : List Char} (h : '_' ∉ l) : splitU l = [l] := by
  induction l with
  | nil => rfl
  | cons c cs ih =>
    have hc : ¬ c = '_' := fun he => h (he ▸ List.mem_cons_self c cs)
    have hcs : '_' ∉ cs := fun hm => h (List.mem_cons_of_mem c hm)
    simp only [splitU, ih hcs]
    rw [if_neg (fun he => hc he)]

theorem splitU_append {l r : List Char} (h : '_' ∉ l) :
    splitU (l ++ '_' :: r) = l :: splitU r := by
  induction l with
  | nil => simp [splitU]
  | cons c cs ih =>
    have hc : ¬ c = '_' := fun he => h (he ▸ List.mem_cons_self c cs)
    have hcs : '_' ∉ cs := fun hm => h (List.mem_cons_of_mem c hm)
    simp only [List.cons_append, splitU, List.append_eq, ih hcs]
    rw [if_neg (fun he => hc he)]

/-- C4 counterexample: the Python integer `-5` is a well-typed "externally
supplied scalar" for `clean_number` (`pd.notna(-5)` holds), and the function
returns `int(-5) = -5`, a negative integer. -/
theorem clean_number_nonneg_counterexample :
    clean_number (.int (-5)) = -5 ∧ ¬ (0 ≤ clean_number (.int (-5))) := by decide

/-- C4 (amended): `clean_number` never raises on the modelled scalar domain
and returns a non-negative integer for every string input and for missing
input; but a numeric input `n` is passed through `int(n)`, so a negative
numeric input yields a negative result. -/
theorem clean_number_total_spec :
    (∀ s : String, 0 ≤ clean_number (.str s)) ∧
    clean_number .na = 0 ∧
    (∀ n : Int, clean_number (.int n) = n) := by
  refine ⟨fun s => ?_, rfl, fun n => rfl⟩
  have hs : clean_number (.str s)
      = if pyIsDigit (pyCleanChars s) then ((digitsToNat (pyCleanChars s) : Nat) : Int)
        else 0 := rfl
  rw [hs]
  split
  · exact Int.natCast_nonneg _
  · exact le_refl 0

/-- C5: a string of digits possibly interspersed with commas and double
quotes is cleaned to its digit subsequence and converted to that number; a
string whose cleaned form still has a non-digit character yields 0, and a
missing value yields 0. -/
theorem clean_number_string_spec :
    (∀ s : String,
        (∀ c ∈ s.toList, c.isDigit ∨ c = ',' ∨ c = '"') →
        (∃ c ∈ s.toList, c.isDigit = true) →
        clean_number (.str s) = ((digitsToNat (s.toList.filter Char.isDigit) : Nat) : Int)) ∧
    (∀ s : String, (∃ c ∈ pyCleanChars s, ¬ c.isDigit = true) →
        clean_number (.str s) = 0) ∧
    clean_number .na = 0 := by
  refine ⟨fun s hall hex => ?_, fun s hex => ?_, rfl⟩
  · have hclean : pyCleanChars s = s.toList.filter Char.isDigit :=
      filter_sep_eq_filter_digit hall
    have hdig : pyIsDigit (pyCleanChars s) = true := by
      rw [hclean]
      rcases hex with ⟨c, hc, hcd⟩
      have hmem : c ∈ s.toList.filter Char.isDigit := List.mem_filter.mpr ⟨hc, hcd⟩
      have h1 : (s.toList.filter Char.isDigit).isEmpty = false := by
        cases hfe : s.toList.filter Char.isDigit with
        | nil => exact absurd (hfe ▸ hmem) (List.not_mem_nil c)
        | cons a as => rfl
      have h2 : (s.toList.filter Char.isDigit).all Char.isDigit = true := by
        rw [List.all_eq_true]
        exact fun x hx => (List.mem_filter.mp hx).2
      rw [pyIsDigit, h1, h2]
      rfl
    have : clean_number (.str s)
        = if pyIsDigit (pyCleanChars s) then ((digitsToNat (pyCleanChars s) : Nat) : Int)
          else 0 := rfl
    rw [this, if_pos hdig, hclean]
  · have hdig : pyIsDigit (pyCleanChars s) = false := by
      rcases hex with ⟨c, hc, hcd⟩
      simp only [pyIsDigit, Bool.and_eq_false_iff]
      right
      rw [List.all_eq_false]
      exact ⟨c, hc, hcd⟩
    have : clean_number (.str s)
        = if pyIsDigit (pyCleanChars s) then ((digitsToNat (pyCleanChars s) : Nat) : Int)
          else 0 := rfl
    rw [this]
    rw [if_neg (fun hcon : pyIsDigit (pyCleanChars s) = true => by
      rw [hdig] at hcon; exact absurd hcon (by decide))]

/-- C5 witness: the spec theorem applied at `"45,000"` (digits with a
separator) and `"12x"` (a non-digit survives cleaning). -/
theorem clean_number_string_spec_witness :
    clean_number (.str "45,000") = 45000 ∧ clean_number (.str "12x") = 0 := by
  constructor
  · have h := clean_number_string_spec.1 "45,000" (by decide) (by decide)
    rw [h]; decide
  · exact clean_number_string_spec.2.1 "12x" ⟨'x', by decide, by decide⟩

/-- C7: if the period suffix decomposes as an abbreviated English month name
(case-insensitive, position `i` in the month list), an underscore, and four
digit characters denoting a year within the `datetime64[ns]` range, the
emitted period is the zero-padded `YYYY-MM` rendering of that year and month
`i+1`; for every suffix the `%b_%Y` parse rejects (parse failures and
out-of-bounds dates are coerced to NaT, and `strftime` on NaT raises into
the bare `except`), the emitted period is the suffix with every underscore
replaced by a dash, and this fallback is total. -/
theorem periodOf_spec :
    (∀ (s : String) (moL yrL : List Char) (i : Nat),
        s.toList = moL ++ '_' :: yrL →
        '_' ∉ moL →
        idxOf monthAbbrs ((moL.map Char.toLower).asString) = some i →
        yrL.length = 4 →
        (∀ c ∈ yrL, c.isDigit = true) →
        inTimestampBounds (digitsToNat yrL) (i + 1) = true →
        periodOf s = pad4 (digitsToNat yrL) ++ "-" ++ pad2 (i + 1)) ∧
    (∀ s : String, to_datetime_b_Y s = Option.none →
        periodOf s = replaceUnderscore s) := by
  constructor
  · intro s moL yrL i hs hmo hidx hlen hdig hbnd
    have hyr : '_' ∉ yrL := by
      intro hm
      exact absurd (hdig '_' hm) (by decide)
    have hparse : to_datetime_b_Y s = some (digitsToNat yrL, i + 1) := by
      have hcond : (decide (yrL.length = 4) && yrL.all Char.isDigit) = true := by
        rw [Bool.and_eq_true, decide_eq_true_eq, List.all_eq_true]
        exact ⟨hlen, hdig⟩
      unfold to_datetime_b_Y
      rw [hs, splitU_append hmo, splitU_no_underscore hyr]
      simp only [hcond, if_true, hidx]
      rw [if_pos hbnd]
    unfold periodOf
    rw [hparse]
    rfl
  · intro s hna
    unfold periodOf
    rw [hna]
    rfl

example : to_datetime_b_Y "sep_9999" = Option.none := by decide

/-- C7 witness: the parse branch at suffix `"sep_2025"` and the fallback
branch at suffix `"2025_09"`. -/
theorem periodOf_spec_witness :
    periodOf "sep_2025" = "2025-09" ∧ periodOf "2025_09" = "2025-09" := by
  constructor
  · have h := periodOf_spec.1 "sep_2025" ['s', 'e', 'p'] ['2', '0', '2', '5'] 8
      (by decide) (by decide) (by decide) (by decide) (by decide) (by decide)
    rw [h]; decide
  · have h := periodOf_spec.2 "2025_09" (by decide)
    rw [h]; decide

theorem reshape_activity {t : Table} {d : String} {rs : List Rec}
    (h : reshapeTable t d = .ok rs) : ∀ r ∈ rs, 0 < r.tpt ∨ 0 < r.tpv := by
  unfold reshapeTable at h
  split at h
  · exact absurd h (by simp)
  · rw [Except.ok.injEq] at h
    subst h
    intro r hr
    simpa using (List.mem_filter.mp hr).2

theorem processAll_activity :
    ∀ (inputs : List (Meta × Option Table)) (frames : List (List Rec)),
      processAll inputs = .ok frames →
      ∀ f ∈ frames, ∀ r ∈ f, 0 < r.tpt ∨ 0 < r.tpv := by
  intro inputs
  induction inputs with
  | nil =>
    intro frames h
    simp only [processAll, Except.ok.injEq] at h
    subst h
    intro f hf
    exact absurd hf (List.not_mem_nil f)
  | cons entry rest ih =>
    obtain ⟨m, t?⟩ := entry
    cases t? with
    | none => intro frames h; exact ih frames h
    | some t =>
      intro frames h
      simp only [processAll] at h
      split at h
      · exact absurd h (by simp)
      · rename_i recs hr
        split at h
        · exact absurd h (by simp)
        · rename_i more hm
          rw [Except.ok.injEq] at h
          subst h
          intro f hf r hrf
          rcases List.mem_cons.mp hf with hf1 | hf2
          · exact reshape_activity hr r (hf1 ▸ hrf)
          · exact ih more hm f hf2 r hrf

/-- C6: (a) every record of a snapshot produced by the merger has a positive
count metric or a positive volume metric (it survived the
`(tpt > 0) | (tpv > 0)` filter of line 87); (b) reshaping a table that has at
least one matched column pair but whose every count/volume cell normalizes to
zero yields the empty record set. -/
theorem snapshot_activity_invariant :
    (∀ (inputs : List (Meta × Option Table)) (recs : List Rec),
        create_mcp_training_data inputs = .ok (.snapshot recs) →
        ∀ r ∈ recs, 0 < r.tpt ∨ 0 < r.tpv) ∧
    (∀ (t : Table) (data_type : String),
        matchedPairs t.cols ≠ [] →
        (∀ row ∈ t.rows, ∀ pr ∈ matchedPairs t.cols,
            clean_number (getCell row pr.1) = 0 ∧ clean_number (getCell row pr.2) = 0) →
        reshapeTable t data_type = .ok []) := by
  constructor
  · intro inputs recs h r hr
    unfold create_mcp_training_data at h
    cases hp : processAll inputs with
    | error e => rw [hp] at h; exact absurd h (by simp [Except.map])
    | ok frames =>
      rw [hp] at h
      simp only [Except.map, Except.ok.injEq] at h
      cases frames with
      | nil => exact absurd h (by simp)
      | cons f fs =>
        have hrecs : recs = (f :: fs).flatten := by
          have := h
          simp only [BuildResult.snapshot.injEq] at this
          exact this.symm
        rw [hrecs] at hr
        rw [List.mem_flatten] at hr
        obtain ⟨frame, hfr, hrfr⟩ := hr
        exact processAll_activity inputs (f :: fs) hp frame hfr r hrfr
  · intro t data_type hne hzero
    unfold reshapeTable
    cases hp : matchedPairs t.cols with
    | nil => exact absurd hp hne
    | cons pr prs =>
      rw [Except.ok.injEq, List.filter_eq_nil_iff]
      intro r hrl
      unfold reshapeLong at hrl
      rw [List.mem_flatMap] at hrl
      obtain ⟨pr', hpr', hmem⟩ := hrl
      rw [List.mem_map] at hmem
      obtain ⟨row, hrow, hrec⟩ := hmem
      obtain ⟨hz1, hz2⟩ := hzero row hrow pr' hpr'
      rw [← hrec]
      simp [hz1, hz2]

/-- C6 witness: part (a) at a one-record build, part (b) at a table whose
single matched pair holds only `"0"` cells. -/
theorem snapshot_activity_invariant_witness :
    (create_mcp_training_data
        [(⟨"Churn_Checkout.csv", "churn", "CHECKOUT"⟩,
          some ⟨["brand_id", "Product Category", "tpt_sep_2025", "tpv_sep_2025"],
                [⟨"b1", "P", [("tpt_sep_2025", .str "3"), ("tpv_sep_2025", .str "0")]⟩]⟩)]
        = .ok (.snapshot [⟨"b1", "P", 3, 0, "2025-09", "churn"⟩]) ∧
      (0 < (⟨"b1", "P", 3, 0, "2025-09", "churn"⟩ : Rec).tpt ∨
       0 < (⟨"b1", "P", 3, 0, "2025-09", "churn"⟩ : Rec).tpv)) ∧
    reshapeTable
        ⟨["brand_id", "Product Category", "tpt_sep_2025", "tpv_sep_2025"],
         [⟨"b1", "P", [("tpt_sep_2025", .str "0"), ("tpv_sep_2025", .str "0")]⟩]⟩
        "churn" = .ok [] :=
  ⟨⟨by decide,
    snapshot_activity_invariant.1
      [(⟨"Churn_Checkout.csv", "churn", "CHECKOUT"⟩,
        some ⟨["brand_id", "Product Category", "tpt_sep_2025", "tpv_sep_2025"],
              [⟨"b1", "P", [("tpt_sep_2025", .str "3"), ("tpv_sep_2025", .str "0")]⟩]⟩)]
      [⟨"b1", "P", 3, 0, "2025-09", "churn"⟩] (by decide)
      ⟨"b1", "P", 3, 0, "2025-09", "churn"⟩ (by decide)⟩,
   snapshot_activity_invariant.2
     ⟨["brand_id", "Product Category", "tpt_sep_2025", "tpv_sep_2025"],
      [⟨"b1", "P", [("tpt_sep_2025", .str "0"), ("tpv_sep_2025", .str "0")]⟩]⟩
     "churn" (by decide) (by decide)⟩

/-- C8: whenever `get_monthly_change` returns a result in which a metric's
period-A total is zero, that metric's percentage change is exactly 0 (the
`if tpt_a` / `if tpv_a` guards select the literal 0 instead of dividing). -/
theorem get_monthly_change_zero_baseline
    (data : List Rec) (month_a month_b : String) (product brand_id : Option String)
    (res : ChangeResult)
    (h : get_monthly_change data month_a month_b product brand_id = .ok res) :
    (res.tpt_a = 0 → res.tpt_change_pct = 0) ∧
    (res.tpv_a = 0 → res.tpv_change_pct = 0) := by
  unfold get_monthly_change at h
  split at h
  · split at h
    · split at h
      · rename_i rows_a rows_b heq1 heq2
        rw [Except.ok.injEq] at h
        subst h
        constructor
        · intro h0
          simp only [ChangeResult.tpt_a] at h0
          simp [ChangeResult.tpt_change_pct, h0]
        · intro h0
          simp only [ChangeResult.tpv_a] at h0
          simp [ChangeResult.tpv_change_pct, h0]
      · exact absurd h (by simp)
      · exact absurd h (by simp)
    · exact absurd h (by simp)
  · exact absurd h (by simp)

theorem filter_comm_and (l : List Rec) (p q : Rec → Bool) :
    (l.filter p).filter q = l.filter (fun r => p r && q r) := by
  rw [List.filter_filter]
  exact List.filter_congr (fun r _ => Bool.and_comm (q r) (p r))

theorem filtersPB_spec (rows : List Rec) (product brand_id : Option String)
    (evs : List Ev) :
    (filtersPB rows product brand_id evs).1
      = rows.filter (fun r => pMatch product r && bMatch brand_id r) := by
  unfold filtersPB pMatch bMatch
  cases optTruthy product <;> cases optTruthy brand_id <;>
    simp [filter_comm_and]
  exact List.filter_congr (fun r _ => Bool.and_comm _ _)

theorem lookupP_bump_eq (m : List (String × Int × Int)) (p : String) (t v : Int) :
    lookupP (bumpProd m p t v) p
      = some (match lookupP m p with
              | some tv => (tv.1 + t, tv.2 + v)
              | Option.none => (t, v)) := by
  induction m with
  | nil => simp [bumpProd, lookupP]
  | cons e rest ih =>
    obtain ⟨q, tq, vq⟩ := e
    by_cases hq : q = p
    · subst hq
      simp [bumpProd, lookupP]
    · simp [bumpProd, lookupP, hq, ih]

theorem lookupP_bump_ne (m : List (String × Int × Int)) (p : String) (t v : Int)
    (q : String) (h : q ≠ p) :
    lookupP (bumpProd m p t v) q = lookupP m q := by
  have hpq : ¬ p = q := fun hh => h hh.symm
  induction m with
  | nil => simp [bumpProd, lookupP, hpq]
  | cons e rest ih =>
    obtain ⟨q', tq, vq⟩ := e
    by_cases hq : q' = p
    · subst hq
      simp [bumpProd, lookupP, hpq]
    · simp [bumpProd, lookupP, hq, ih]

theorem lookupP_fold (rows : List Rec) :
    ∀ (m : List (String × Int × Int)) (p : String),
      lookupP (rows.foldl (fun acc r => bumpProd acc r.product r.tpt r.tpv) m) p
        = match lookupP m p with
          | some tv => some (tv.1 + sumTptFor rows p, tv.2 + sumTpvFor rows p)
          | Option.none =>
              if rows.any (fun r => decide (r.product = p))
              then some (sumTptFor rows p, sumTpvFor rows p)
              else Option.none := by
  induction rows with
  | nil =>
    intro m p
    cases hm : lookupP m p <;>
      simp [hm, sumTptFor, sumTpvFor, sumTpt, sumTpv]
  | cons r rs ih =>
    intro m p
    rw [List.foldl_cons, ih (bumpProd m r.product r.tpt r.tpv) p]
    by_cases hp : r.product = p
    · have hS : sumTptFor (r :: rs) p = r.tpt + sumTptFor rs p := by
        simp [sumTptFor, List.filter_cons, hp, sumTpt]
      have hV : sumTpvFor (r :: rs) p = r.tpv + sumTpvFor rs p := by
        simp [sumTpvFor, List.filter_cons, hp, sumTpv]
      rw [hS, hV, hp, lookupP_bump_eq]
      have hAny : (r :: rs).any (fun x => decide (x.product = p)) = true := by
        simp [List.any_cons, hp]
      rw [hAny]
      cases hm : lookupP m p with
      | none => simp [hm]
      | some tv => simp [hm, Int.add_assoc]
    · have hS : sumTptFor (r :: rs) p = sumTptFor rs p := by
        simp [sumTptFor, List.filter_cons, hp]
      have hV : sumTpvFor (r :: rs) p = sumTpvFor rs p := by
        simp [sumTpvFor, List.filter_cons, hp]
      have hAny : (r :: rs).any (fun x => decide (x.product = p))
          = rs.any (fun x => decide (x.product = p)) := by
        simp [List.any_cons, hp]
      rw [hS, hV, hAny, lookupP_bump_ne m r.product r.tpt r.tpv p (fun hh => hp hh.symm)]

theorem mem_keysP_bump (m : List (String × Int × Int)) (p : String) (t v : Int)
    (q : String) :
    q ∈ keysP (bumpProd m p t v) ↔ q ∈ keysP m ∨ q = p := by
  induction m with
  | nil => simp [bumpProd, keysP, eq_comm]
  | cons e rest ih =>
    obtain ⟨q', tq, vq⟩ := e
    by_cases hq : q' = p
    · subst hq
      have hbump : bumpProd ((q', tq, vq) :: rest) q' t v = (q', tq + t, vq + v) :: rest := by
        simp [bumpProd]
      rw [hbump]
      simp only [keysP, List.map_cons, List.mem_cons]
      tauto
    · have hbump : bumpProd ((q', tq, vq) :: rest) p t v
          = (q', tq, vq) :: bumpProd rest p t v := by
        simp [bumpProd, hq]
      rw [hbump]
      simp only [keysP, List.map_cons, List.mem_cons] at ih ⊢
      rw [ih]
      tauto

theorem keysP_bump_nodup (m : List (String × Int × Int)) (p : String) (t v : Int)
    (h : (keysP m).Nodup) : (keysP (bumpProd m p t v)).Nodup := by
  induction m with
  | nil => simp [bumpProd, keysP]
  | cons e rest ih =>
    obtain ⟨q', tq, vq⟩ := e
    simp only [keysP, List.map_cons, List.nodup_cons] at h
    obtain ⟨hq'mem, hnd⟩ := h
    by_cases hq : q' = p
    · subst hq
      have hbump : bumpProd ((q', tq, vq) :: rest) q' t v = (q', tq + t, vq + v) :: rest := by
        simp [bumpProd]
      rw [hbump]
      simp only [keysP, List.map_cons, List.nodup_cons]
      exact ⟨hq'mem, hnd⟩
    · have hbump : bumpProd ((q', tq, vq) :: rest) p t v
          = (q', tq, vq) :: bumpProd rest p t v := by
        simp [bumpProd, hq]
      rw [hbump]
      simp only [keysP, List.map_cons, List.nodup_cons]
      refine ⟨?_, ih hnd⟩
      intro hmem
      rcases (mem_keysP_bump rest p t v q').mp hmem with h1 | h2
      · exact hq'mem h1
      · exact hq h2

theorem product_totals_nodup (rows : List Rec) :
    (keysP (product_totals rows)).Nodup := by
  have key : ∀ m : List (String × Int × Int), (keysP m).Nodup →
      (keysP (rows.foldl (fun acc r => bumpProd acc r.product r.tpt r.tpv) m)).Nodup := by
    induction rows with
    | nil => intro m h; exact h
    | cons r rs ih =>
      intro m h
      rw [List.foldl_cons]
      exact ih _ (keysP_bump_nodup _ _ _ _ h)
  exact key [] (by simp [keysP])

theorem mem_lookupP {m : List (String × Int × Int)} {p : String} {tv : Int × Int}
    (hnd : (keysP m).Nodup) (h : (p, tv) ∈ m) : lookupP m p = some tv := by
  induction m with
  | nil => cases h
  | cons e rest ih =>
    obtain ⟨q, tv'⟩ := e
    simp only [keysP, List.map_cons, List.nodup_cons] at hnd
    rcases List.mem_cons.mp h with he | hrest
    · rw [Prod.mk.injEq] at he
      obtain ⟨h1, h2⟩ := he
      subst h1
      subst h2
      simp [lookupP]
    · have hq : ¬ q = p := by
        intro hqp
        subst hqp
        exact hnd.1 (List.mem_map.mpr ⟨(q, tv), hrest, rfl⟩)
      simp only [lookupP, if_neg hq]
      exact ih hnd.2 hrest

theorem lookupP_product_totals (rows : List Rec) (p : String) :
    lookupP (product_totals rows) p
      = if rows.any (fun r => decide (r.product = p))
        then some (sumTptFor rows p, sumTpvFor rows p)
        else Option.none := by
  have hf := lookupP_fold rows [] p
  simp only [lookupP] at hf
  unfold product_totals
  exact hf

theorem product_totals_char {rows : List Rec} {p : String} {t v : Int}
    (h : (p, (t, v)) ∈ product_totals rows) :
    t = sumTptFor rows p ∧ v = sumTpvFor rows p := by
  have hl : lookupP (product_totals rows) p = some (t, v) :=
    mem_lookupP (product_totals_nodup rows) h
  rw [lookupP_product_totals] at hl
  by_cases hany : rows.any (fun r => decide (r.product = p)) = true
  · rw [if_pos hany] at hl
    have heq := Option.some.inj hl
    exact ⟨(congrArg Prod.fst heq).symm, (congrArg Prod.snd heq).symm⟩
  · rw [if_neg hany] at hl
    exact absurd hl (by simp)

theorem sumTpt_nonneg {l : List Rec} (h : ∀ r ∈ l, 0 ≤ r.tpt) : 0 ≤ sumTpt l := by
  induction l with
  | nil => simp [sumTpt]
  | cons r rs ih =>
    have h1 := h r (List.mem_cons_self r rs)
    have h2 := ih (fun x hx => h x (List.mem_cons_of_mem r hx))
    simp only [sumTpt]
    omega

theorem sumTpv_nonneg {l : List Rec} (h : ∀ r ∈ l, 0 ≤ r.tpv) : 0 ≤ sumTpv l := by
  induction l with
  | nil => simp [sumTpv]
  | cons r rs ih =>
    have h1 := h r (List.mem_cons_self r rs)
    have h2 := ih (fun x hx => h x (List.mem_cons_of_mem r hx))
    simp only [sumTpv]
    omega

theorem sumTpt_filter_le {l : List Rec} (p : Rec → Bool) (h : ∀ r ∈ l, 0 ≤ r.tpt) :
    sumTpt (l.filter p) ≤ sumTpt l := by
  induction l with
  | nil => simp [sumTpt]
  | cons r rs ih =>
    have h1 := h r (List.mem_cons_self r rs)
    have h2 := ih (fun x hx => h x (List.mem_cons_of_mem r hx))
    by_cases hp : p r = true
    · simp only [List.filter_cons, hp, if_true, sumTpt]
      omega
    · simp only [List.filter_cons, hp, Bool.false_eq_true, if_false, sumTpt]
      omega

theorem sumTpv_filter_le {l : List Rec} (p : Rec → Bool) (h : ∀ r ∈ l, 0 ≤ r.tpv) :
    sumTpv (l.filter p) ≤ sumTpv l := by
  induction l with
  | nil => simp [sumTpv]
  | cons r rs ih =>
    have h1 := h r (List.mem_cons_self r rs)
    have h2 := ih (fun x hx => h x (List.mem_cons_of_mem r hx))
    by_cases hp : p r = true
    · simp only [List.filter_cons, hp, if_true, sumTpv]
      omega
    · simp only [List.filter_cons, hp, Bool.false_eq_true, if_false, sumTpv]
      omega

theorem pct_bounds {t T : Int} (ht0 : 0 ≤ t) (hle : t ≤ T) (hT : T ≠ 0) :
    0 ≤ (t : ℚ) / (T : ℚ) * 100 ∧ (t : ℚ) / (T : ℚ) * 100 ≤ 100 := by
  have hTpos : (0 : ℚ) < (T : ℚ) := by
    have h1 : 0 < T := lt_of_le_of_ne (le_trans ht0 hle) (Ne.symm hT)
    exact_mod_cast h1
  have htQ : (0 : ℚ) ≤ (t : ℚ) := by exact_mod_cast ht0
  constructor
  · exact mul_nonneg (div_nonneg htQ (le_of_lt hTpos)) (by norm_num)
  · have h1 : (t : ℚ) / (T : ℚ) ≤ 1 := (div_le_one hTpos).mpr (by exact_mod_cast hle)
    calc (t : ℚ) / (T : ℚ) * 100 ≤ 1 * 100 :=
          mul_le_mul_of_nonneg_right h1 (by norm_num)
      _ = 100 := by norm_num

theorem filter_rows_fst_cases (data : List Rec) (month product brand_id : Option String) :
    (filter_rows data month product brand_id).1 = .error monthErr ∨
    ∃ pre : Rec → Bool,
      (filter_rows data month product brand_id).1 = .ok (data.filter pre) := by
  unfold filter_rows
  cases hm : optTruthy month with
  | none =>
    right
    refine ⟨fun r => pMatch product r && bMatch brand_id r, ?_⟩
    rcases hfp : filtersPB data product brand_id [Ev.load] with ⟨rows, evs⟩
    have hsp := filtersPB_spec data product brand_id [Ev.load]
    rw [hfp] at hsp
    simp only at hsp
    simpa using hsp
  | some m =>
    by_cases he : ensure_yyyy_mm m = true
    · right
      refine ⟨fun r => pyLe r.month m && (pMatch product r && bMatch brand_id r), ?_⟩
      dsimp only
      rw [if_pos he]
      rcases hfp : filtersPB (data.filter (fun r => pyLe r.month m)) product brand_id
          [Ev.load, Ev.validate, Ev.monthFilter] with ⟨rows, evs⟩
      have hsp := filtersPB_spec (data.filter (fun r => pyLe r.month m)) product brand_id
          [Ev.load, Ev.validate, Ev.monthFilter]
      rw [hfp] at hsp
      simp only at hsp
      rw [filter_comm_and] at hsp
      simpa using hsp
    · left
      dsimp only
      rw [if_neg he]

/-- C9 counterexample: the merger itself can produce a snapshot with a
negative metric — a numeric cell `-5` passes through `clean_number`
unchanged and the record survives the activity filter because its paired
volume is positive — and over that loaded snapshot `get_product_mix`
reports a count percentage of `-100%` for one product and `200%` for the
other, leaving `[0, 100]`. -/
theorem product_mix_pct_counterexample :
    create_mcp_training_data
        [(⟨"Profit_Checkout.csv", "profit", "CHECKOUT"⟩,
          some ⟨["brand_id", "Product Category", "tpt_sep_2025", "tpv_sep_2025"],
                [⟨"b1", "P", [("tpt_sep_2025", .int (-5)), ("tpv_sep_2025", .int 3)]⟩,
                 ⟨"b2", "Q", [("tpt_sep_2025", .str "10"), ("tpv_sep_2025", .str "1")]⟩]⟩)]
      = .ok (.snapshot
          [⟨"b1", "P", -5, 3, "2025-09", "profit"⟩,
           ⟨"b2", "Q", 10, 1, "2025-09", "profit"⟩]) ∧
    get_product_mix
        [⟨"b1", "P", -5, 3, "2025-09", "profit"⟩,
         ⟨"b2", "Q", 10, 1, "2025-09", "profit"⟩] Option.none
      = .ok (mixOf
          [⟨"b1", "P", -5, 3, "2025-09", "profit"⟩,
           ⟨"b2", "Q", 10, 1, "2025-09", "profit"⟩]) ∧
    (mixOf [⟨"b1", "P", -5, 3, "2025-09", "profit"⟩,
            ⟨"b2", "Q", 10, 1, "2025-09", "profit"⟩]).mix
      = [⟨"P", -5, -100, 3, 75⟩, ⟨"Q", 10, 200, 1, 25⟩] ∧
    ((-100 : ℚ) < 0 ∧ (100 : ℚ) < 200) := by
  refine ⟨by decide, rfl, ?_, by norm_num⟩
  norm_num [mixOf, product_totals, bumpProd, sumTpt, sumTpv]
  rw [if_neg (by decide : ¬ ("P" : String) = "Q")]
  norm_num [List.map]

/-- C9 (amended): over a snapshot whose records all carry non-negative
metrics (the data-model invariant for Normalized Records, which the merger
does not actually enforce against negative numeric cells), every per-product
percentage `get_product_mix` reports lies in `[0, 100]` for both metrics, and
equals 0 whenever the corresponding grand total is 0. -/
theorem product_mix_pct_bounds
    (data : List Rec) (month : Option String) (res : MixResult)
    (hpos : ∀ r ∈ data, 0 ≤ r.tpt ∧ 0 ≤ r.tpv)
    (h : get_product_mix data month = .ok res) :
    ∀ e ∈ res.mix,
      (0 ≤ e.tptPct ∧ e.tptPct ≤ 100) ∧
      (0 ≤ e.tpvPct ∧ e.tpvPct ≤ 100) ∧
      (res.grandTotalTPT = 0 → e.tptPct = 0) ∧
      (res.grandTotalTPV = 0 → e.tpvPct = 0) := by
  unfold get_product_mix at h
  split at h
  · exact absurd h (by simp)
  · rename_i rows hrows
    rw [Except.ok.injEq] at h
    subst h
    have hsub : ∀ r ∈ rows, r ∈ data := by
      rcases filter_rows_fst_cases data month Option.none Option.none with herr | ⟨pre, hok⟩
      · rw [herr] at hrows
        exact absurd hrows (by simp)
      · rw [hok, Except.ok.injEq] at hrows
        intro r hr
        rw [← hrows] at hr
        exact List.mem_of_mem_filter hr
    have hposT : ∀ r ∈ rows, 0 ≤ r.tpt := fun r hr => (hpos r (hsub r hr)).1
    have hposV : ∀ r ∈ rows, 0 ≤ r.tpv := fun r hr => (hpos r (hsub r hr)).2
    intro e he
    have hmix : (mixOf rows).mix = (product_totals rows).map (fun ent =>
        ({ product := ent.1
           totalTPT := ent.2.1
           tptPct := if sumTpt rows ≠ 0 then (ent.2.1 : ℚ) / (sumTpt rows : ℚ) * 100 else 0
           totalTPV := ent.2.2
           tpvPct := if sumTpv rows ≠ 0 then (ent.2.2 : ℚ) / (sumTpv rows : ℚ) * 100 else 0 }
          : MixEntry)) := rfl
    rw [hmix, List.mem_map] at he
    obtain ⟨ent, hent, hfe⟩ := he
    obtain ⟨p, t, v⟩ := ent
    obtain ⟨ht, hv⟩ := product_totals_char hent
    subst hfe
    have hgT : (mixOf rows).grandTotalTPT = sumTpt rows := rfl
    have hgV : (mixOf rows).grandTotalTPV = sumTpv rows := rfl
    rw [hgT, hgV]
    have htB : 0 ≤ t ∧ t ≤ sumTpt rows := by
      constructor
      · rw [ht]
        exact sumTpt_nonneg (fun r hr => hposT r (List.mem_of_mem_filter hr))
      · rw [ht]
        exact sumTpt_filter_le _ hposT
    have hvB : 0 ≤ v ∧ v ≤ sumTpv rows := by
      constructor
      · rw [hv]
        exact sumTpv_nonneg (fun r hr => hposV r (List.mem_of_mem_filter hr))
      · rw [hv]
        exact sumTpv_filter_le _ hposV
    refine ⟨?_, ?_, ?_, ?_⟩
    · by_cases hT : sumTpt rows = 0
      · simp [hT]
      · have hpct := pct_bounds htB.1 htB.2 hT
        simpa [hT] using hpct
    · by_cases hV : sumTpv rows = 0
      · simp [hV]
      · have hpct := pct_bounds hvB.1 hvB.2 hV
        simpa [hV] using hpct
    · intro h0
      simp [h0]
    · intro h0
      simp [h0]

/-- C9 witness: the theorem at a concrete two-product snapshot, checking the
bounds for the first mix entry. -/
theorem product_mix_pct_bounds_witness :
    get_product_mix
        [⟨"b1", "P", 1, 3, "2025-01", "churn"⟩, ⟨"b2", "Q", 3, 1, "2025-01", "profit"⟩]
        Option.none
      = .ok (mixOf [⟨"b1", "P", 1, 3, "2025-01", "churn"⟩,
                    ⟨"b2", "Q", 3, 1, "2025-01", "profit"⟩]) ∧
    ∀ e ∈ (mixOf [⟨"b1", "P", 1, 3, "2025-01", "churn"⟩,
                  ⟨"b2", "Q", 3, 1, "2025-01", "profit"⟩]).mix,
      (0 ≤ e.tptPct ∧ e.tptPct ≤ 100) ∧
      (0 ≤ e.tpvPct ∧ e.tpvPct ≤ 100) ∧
      ((mixOf [⟨"b1", "P", 1, 3, "2025-01", "churn"⟩,
               ⟨"b2", "Q", 3, 1, "2025-01", "profit"⟩]).grandTotalTPT = 0 → e.tptPct = 0) ∧
      ((mixOf [⟨"b1", "P", 1, 3, "2025-01", "churn"⟩,
               ⟨"b2", "Q", 3, 1, "2025-01", "profit"⟩]).grandTotalTPV = 0 → e.tpvPct = 0) :=
  ⟨rfl,
   product_mix_pct_bounds
     [⟨"b1", "P", 1, 3, "2025-01", "churn"⟩, ⟨"b2", "Q", 3, 1, "2025-01", "profit"⟩]
     Option.none
     (mixOf [⟨"b1", "P", 1, 3, "2025-01", "churn"⟩, ⟨"b2", "Q", 3, 1, "2025-01", "profit"⟩])
     (by decide) rfl⟩

/-- C2 counterexample: a table whose descriptor carries
`product_name = "CHECKOUT"` but whose row's `Product Category` cell is
`"FOO"` produces a record with `product = "FOO"`: the reshaper copies the
renamed `Product Category` column and never reads `product_name`. -/
theorem product_label_counterexample :
    create_mcp_training_data
        [(⟨"Churn_Checkout.csv", "churn", "CHECKOUT"⟩,
          some ⟨["brand_id", "Product Category", "tpt_sep_2025", "tpv_sep_2025"],
                [⟨"b1", "FOO", [("tpt_sep_2025", .str "3"), ("tpv_sep_2025", .str "4")]⟩]⟩)]
      = .ok (.snapshot [⟨"b1", "FOO", 3, 4, "2025-09", "churn"⟩]) ∧
    (⟨"Churn_Checkout.csv", "churn", "CHECKOUT"⟩ : Meta).product_name = "CHECKOUT" ∧
    (⟨"b1", "FOO", 3, 4, "2025-09", "churn"⟩ : Rec).product ≠ "CHECKOUT" := by decide

/-- C2 (amended): every record the reshaper emits takes its `product` field
from the `Product Category` cell of the source row it was built from (and
its `brand_id` and `type` from the row and the descriptor's type tag); the
descriptor's `product_name` is not consulted — `reshapeTable` does not even
receive it. -/
theorem reshape_product_from_category
    (t : Table) (data_type : String) (recs : List Rec)
    (h : reshapeTable t data_type = .ok recs) :
    ∀ rec ∈ recs, ∃ row ∈ t.rows,
      rec.product = row.category ∧ rec.brand_id = row.brand_id ∧ rec.type = data_type := by
  unfold reshapeTable at h
  split at h
  · exact absurd h (by simp)
  · rw [Except.ok.injEq] at h
    subst h
    intro rec hrec
    have hlong : rec ∈ reshapeLong t data_type := (List.mem_filter.mp hrec).1
    unfold reshapeLong at hlong
    rw [List.mem_flatMap] at hlong
    obtain ⟨pr, _, hmem⟩ := hlong
    rw [List.mem_map] at hmem
    obtain ⟨row, hrow, hrec'⟩ := hmem
    exact ⟨row, hrow, by rw [← hrec'], by rw [← hrec'], by rw [← hrec']⟩

/-- C2 witness: the amended theorem applied to the counterexample table — the
emitted record's product is the row's `Product Category` value `"FOO"`. -/
theorem reshape_product_from_category_witness :
    reshapeTable
        ⟨["brand_id", "Product Category", "tpt_sep_2025", "tpv_sep_2025"],
         [⟨"b1", "FOO", [("tpt_sep_2025", .str "3"), ("tpv_sep_2025", .str "4")]⟩]⟩
        "churn"
      = .ok [⟨"b1", "FOO", 3, 4, "2025-09", "churn"⟩] ∧
    (∃ row ∈ (⟨["brand_id", "Product Category", "tpt_sep_2025", "tpv_sep_2025"],
         [⟨"b1", "FOO", [("tpt_sep_2025", .str "3"), ("tpv_sep_2025", .str "4")]⟩]⟩ :
           Table).rows,
      (⟨"b1", "FOO", 3, 4, "2025-09", "churn"⟩ : Rec).product = row.category ∧
      (⟨"b1", "FOO", 3, 4, "2025-09", "churn"⟩ : Rec).brand_id = row.brand_id ∧
      (⟨"b1", "FOO", 3, 4, "2025-09", "churn"⟩ : Rec).type = "churn") :=
  ⟨by decide,
   reshape_product_from_category
     ⟨["brand_id", "Product Category", "tpt_sep_2025", "tpv_sep_2025"],
      [⟨"b1", "FOO", [("tpt_sep_2025", .str "3"), ("tpv_sep_2025", .str "4")]⟩]⟩
     "churn" [⟨"b1", "FOO", 3, 4, "2025-09", "churn"⟩] (by decide)
     ⟨"b1", "FOO", 3, 4, "2025-09", "churn"⟩ (by decide)⟩

/-- C10: when a successfully read table has no `tpt_` column whose `tpv_`
counterpart exists, the per-table reshape raises the uncaught `KeyError` of
line 80 and the whole build aborts, whatever other sources follow. -/
theorem missing_pair_aborts_build
    (meta : Meta) (t : Table) (rest : List (Meta × Option Table))
    (h : matchedPairs t.cols = []) :
    reshapeTable t meta.type = .error keyErrorTpt ∧
    create_mcp_training_data ((meta, some t) :: rest) = .error keyErrorTpt := by
  have h1 : reshapeTable t meta.type = .error keyErrorTpt := by
    unfold reshapeTable
    rw [h]
  refine ⟨h1, ?_⟩
  unfold create_mcp_training_data processAll
  rw [h1]
  rfl

/-- C10 witness: a table whose only count column `tpt_sep_2025` has no
matching volume column aborts the build even though another healthy source
follows it. -/
theorem missing_pair_aborts_build_witness :
    matchedPairs ["brand_id", "Product Category", "tpt_sep_2025"] = [] ∧
    create_mcp_training_data
        [(⟨"Churn_Checkout.csv", "churn", "CHECKOUT"⟩,
          some ⟨["brand_id", "Product Category", "tpt_sep_2025"], [⟨"b1", "P", []⟩]⟩),
         (⟨"Churn_Plugin.csv", "churn", "PLUGIN"⟩,
          some ⟨["brand_id", "Product Category", "tpt_oct_2025", "tpv_oct_2025"],
                [⟨"b2", "P", [("tpt_oct_2025", .str "1"), ("tpv_oct_2025", .str "2")]⟩]⟩)]
      = .error keyErrorTpt :=
  ⟨by decide,
   (missing_pair_aborts_build ⟨"Churn_Checkout.csv", "churn", "CHECKOUT"⟩
      ⟨["brand_id", "Product Category", "tpt_sep_2025"], [⟨"b1", "P", []⟩]⟩
      [(⟨"Churn_Plugin.csv", "churn", "PLUGIN"⟩,
        some ⟨["brand_id", "Product Category", "tpt_oct_2025", "tpv_oct_2025"],
              [⟨"b2", "P", [("tpt_oct_2025", .str "1"), ("tpv_oct_2025", .str "2")]⟩]⟩)]
      (by decide)).2⟩

/-- C8 witness: over the empty snapshot both period-A totals are 0 and both
percentage changes are reported as 0. -/
theorem get_monthly_change_zero_baseline_witness :
    get_monthly_change [] "2025-01" "2025-02" Option.none Option.none
      = .ok ⟨0, 0, 0, 0, 0, 0⟩ ∧
    (⟨0, 0, 0, 0, 0, 0⟩ : ChangeResult).tpt_change_pct = 0 :=
  ⟨by decide,
   (get_monthly_change_zero_baseline [] "2025-01" "2025-02" Option.none Option.none
      ⟨0, 0, 0, 0, 0, 0⟩ (by decide)).1 rfl⟩

end HackTheAI
